import Mathlib

/-!
Shallow embedding of `asa_api_cli/impression_share.py`.

Python `Decimal` and `float` values are modelled as exact rationals (`ℚ`),
optional values as `Option`, and the report rows and keyword metadata as
structures mirroring the fields the code reads.  Python truthiness of the
optional fields (`if not meta.keyword_id`, `x or 0`, …) is modelled
explicitly: `None`, `0` and `""` are falsy.
-/

namespace AsaCli

/-- Python truthiness of an optional integer: `None` and `0` are falsy. -/
def truthyOptInt : Option ℤ → Bool
  | none => false
  | some n => n != 0

/-- Python truthiness of an optional string: `None` and `""` are falsy. -/
def truthyOptStr : Option String → Bool
  | none => false
  | some s => s != ""

/-- Python `int()` truncation toward zero of an exact rational. -/
def intTrunc (q : ℚ) : ℤ := if 0 ≤ q then ⌊q⌋ else ⌈q⌉

/-- Round to the nearest integer, ties to even: the rounding used by
Python `decimal` formatting (`ROUND_HALF_EVEN`). -/
def roundHalfEven (q : ℚ) : ℤ :=
  if q - (⌊q⌋ : ℚ) < 1/2 then ⌊q⌋
  else if 1/2 < q - (⌊q⌋ : ℚ) then ⌊q⌋ + 1
  else if ⌊q⌋ % 2 = 0 then ⌊q⌋ else ⌊q⌋ + 1

/-- Two-digit zero padding of a value in `[0, 100)`. -/
def pad2 (n : ℕ) : String :=
  if n < 10 then "0" ++ toString n else toString n

/-- Python `f"{x:.2f}"` applied to an exact decimal value. -/
def fmt2 (q : ℚ) : String :=
  (if roundHalfEven (q * 100) < 0 then "-" else "")
    ++ toString ((roundHalfEven (q * 100)).natAbs / 100)
    ++ "." ++ pad2 ((roundHalfEven (q * 100)).natAbs % 100)

/-- The `KeywordShareData` dataclass (`impression_share.py`, lines 30-46):
impression share data for a keyword with bid info. -/
structure KeywordShareData where
  campaign_id : ℤ
  campaign_name : String
  ad_group_id : ℤ
  ad_group_name : String
  keyword_id : ℤ
  keyword : String
  country : String
  current_bid : ℚ
  currency : String
  low_share : Option ℚ
  high_share : Option ℚ
  rank : Option ℤ
  search_popularity : Option ℤ
deriving Repr, DecidableEq

namespace KeywordShareData

/-- The `share_range` property (lines 48-55): formats the impression share
as a range string.  A falsy `low_share` (`None` or `0.0`) prints as `"0"`,
a falsy `high_share` as `"?"`; both `None` gives `"N/A"`. -/
def share_range (d : KeywordShareData) : String :=
  if d.low_share = none ∧ d.high_share = none then "N/A"
  else
    (match d.low_share with
      | some q => if q ≠ 0 then toString (intTrunc (q * 100)) else "0"
      | none => "0")
    ++ "-"
    ++ (match d.high_share with
      | some q => if q ≠ 0 then toString (intTrunc (q * 100)) else "?"
      | none => "?")
    ++ "%"

/-- The `suggested_bid` property (lines 67-87): tiered bid increase driven
by `high_share`.  `Decimal("1.50")`, `Decimal("1.25")` and `Decimal("1.10")`
are the exact rationals `3/2`, `5/4` and `11/10`; `high_pct` is
`high_share * 100`. -/
def suggested_bid (d : KeywordShareData) : ℚ :=
  match d.high_share with
  | none => d.current_bid
  | some h =>
    if h ≥ 1/2 then d.current_bid
    else
      if h * 100 ≤ 10 then d.current_bid * (3/2)
      else if h * 100 ≤ 30 then d.current_bid * (5/4)
      else if h * 100 ≤ 50 then d.current_bid * (11/10)
      else d.current_bid

/-- The `suggested_bid_str` property (lines 89-95): `"-"` when the
suggestion equals the current bid, otherwise the 2-decimal rendering. -/
def suggested_bid_str (d : KeywordShareData) : String :=
  if d.suggested_bid = d.current_bid then "-"
  else fmt2 d.suggested_bid ++ " " ++ d.currency

end KeywordShareData

/-- A record fixing the fields irrelevant to the bid and share logic,
used to instantiate the theorems at concrete inputs. -/
def sampleRecord (bid : ℚ) (low high : Option ℚ) : KeywordShareData :=
  { campaign_id := 1, campaign_name := "Brand", ad_group_id := 2,
    ad_group_name := "SKAG", keyword_id := 3, keyword := "app",
    country := "US", current_bid := bid, currency := "USD",
    low_share := low, high_share := high, rank := some 1,
    search_popularity := some 50 }

/-! ### Report rows and `_parse_report_data` -/

/-- Bid info collected per keyword id by the campaign → ad group → keyword
fan-out (`keywords_by_id[kw.id] = {"bid": …, "currency": …}`). -/
structure BidInfo where
  bid : ℚ
  currency : String
deriving Repr, DecidableEq

/-- The metadata fields of one report row that the code reads. -/
structure RowMetadata where
  campaign_id : Option ℤ
  campaign_name : Option String
  ad_group_id : Option ℤ
  ad_group_name : Option String
  keyword_id : Option ℤ
  keyword : Option String
  country_or_region : Option String
deriving Repr, DecidableEq

/-- One row of the impression share report. -/
structure ReportRow where
  metadata : RowMetadata
  low_impression_share : Option ℚ
  high_impression_share : Option ℚ
  rank : Option ℤ
  search_popularity : Option ℤ
deriving Repr, DecidableEq

/-- The row-keeping test of `_parse_report_data` (line 107):
`if not meta.keyword_id or not meta.keyword: continue`. -/
def keepRow (row : ReportRow) : Bool :=
  truthyOptInt row.metadata.keyword_id && truthyOptStr row.metadata.keyword

/-- Construction of one `KeywordShareData` from a kept report row
(lines 110-131).  Python `x or default` coincides with `Option.getD`
here because each fallback equals the falsy value it replaces
(`0` for ids, `""` for names); the bid lookup defaults are
`kw_info.get("bid", Decimal("0"))` and `kw_info.get("currency", "USD")`. -/
def convertRow (kmap : ℤ → Option BidInfo) (row : ReportRow) : KeywordShareData :=
  { campaign_id := row.metadata.campaign_id.getD 0
    campaign_name := row.metadata.campaign_name.getD ""
    ad_group_id := row.metadata.ad_group_id.getD 0
    ad_group_name := row.metadata.ad_group_name.getD ""
    keyword_id := row.metadata.keyword_id.getD 0
    keyword := row.metadata.keyword.getD ""
    country := row.metadata.country_or_region.getD ""
    current_bid := match kmap (row.metadata.keyword_id.getD 0) with
      | some info => info.bid
      | none => 0
    currency := match kmap (row.metadata.keyword_id.getD 0) with
      | some info => info.currency
      | none => "USD"
    low_share := row.low_impression_share
    high_share := row.high_impression_share
    rank := row.rank
    search_popularity := row.search_popularity }

/-- `_parse_report_data` (lines 98-133): the loop over `report.row`,
skipping rows with falsy `keyword_id` or `keyword` and appending one
structured record per kept row. -/
def parseReportData (kmap : ℤ → Option BidInfo) : List ReportRow → List KeywordShareData
  | [] => []
  | row :: rest =>
    if truthyOptInt row.metadata.keyword_id && truthyOptStr row.metadata.keyword then
      convertRow kmap row :: parseReportData kmap rest
    else
      parseReportData kmap rest

/-- The loop of `_parse_report_data` is filtering by the keep test
followed by the per-row conversion, preserving input order. -/
theorem parseReportData_eq_filter_map (kmap : ℤ → Option BidInfo)
    (rows : List ReportRow) :
    parseReportData kmap rows = (rows.filter keepRow).map (convertRow kmap) := by
  induction rows with
  | nil => rfl
  | cons row rest ih =>
    have hcond : (truthyOptInt row.metadata.keyword_id
        && truthyOptStr row.metadata.keyword) = keepRow row := rfl
    simp only [parseReportData, List.filter_cons, hcond]
    cases hk : keepRow row <;> simp [hk, ih]

/-! ### Filtering and sorting -/

/-- The `--min-share` filter of `analyze` (lines 268-271):
`threshold = min_share / 100.0` and
`data = [d for d in data if d.high_share is not None and d.high_share < threshold]`. -/
def minShareFilter (min_share : ℚ) (data : List KeywordShareData) :
    List KeywordShareData :=
  data.filter (fun d => match d.high_share with
    | some h => decide (h < min_share / 100)
    | none => false)

/-- The sort key `lambda x: x.high_share or 0` (lines 278 and 388):
a falsy `high_share` (`None` or `0.0`) gives `0`. -/
def shareKey (d : KeywordShareData) : ℚ :=
  match d.high_share with
  | some q => if q ≠ 0 then q else 0
  | none => 0

/-- `data.sort(key=lambda x: x.high_share or 0)` (lines 278 and 388),
modelled with a stable merge sort on the same key. -/
def sortByShare (data : List KeywordShareData) : List KeywordShareData :=
  data.mergeSort (fun a b => decide (shareKey a ≤ shareKey b))

/-! ### Date range computation (shared by all three commands) -/

/-- The days clamp, warning, and inclusive date range computed at the top
of a command.  Dates are modelled as integer day numbers. -/
structure DateRange where
  warned : Bool
  effective_days : ℤ
  end_date : ℤ
  start_date : ℤ
deriving Repr, DecidableEq

/-- Lines 201-207 of `analyze_impression_share`: clamp `days` to 30 with a
warning, `end_date = date.today() - timedelta(days=1)`,
`start_date = end_date - timedelta(days=days - 1)`. -/
def analyzeDateRange (today days : ℤ) : DateRange :=
  if days > 30 then
    { warned := true, effective_days := 30, end_date := today - 1,
      start_date := today - 1 - (30 - 1) }
  else
    { warned := false, effective_days := days, end_date := today - 1,
      start_date := today - 1 - (days - 1) }

/-- Lines 324-330 of `interactive_bid_optimizer`: identical clamp and
date-range computation. -/
def optimizeDateRange (today days : ℤ) : DateRange :=
  if days > 30 then
    { warned := true, effective_days := 30, end_date := today - 1,
      start_date := today - 1 - (30 - 1) }
  else
    { warned := false, effective_days := days, end_date := today - 1,
      start_date := today - 1 - (days - 1) }

/-- Lines 491-497 of `generate_share_report`: identical clamp and
date-range computation. -/
def reportDateRange (today days : ℤ) : DateRange :=
  if days > 30 then
    { warned := true, effective_days := 30, end_date := today - 1,
      start_date := today - 1 - (30 - 1) }
  else
    { warned := false, effective_days := days, end_date := today - 1,
      start_date := today - 1 - (days - 1) }

/-! ### CSV export -/

/-- A raw value handed to `csv.writer.writerow`: the integer, string and
share fields of a row, each possibly `None`. -/
inductive CsvValue where
  | I : Option ℤ → CsvValue
  | S : Option String → CsvValue
  | Q : Option ℚ → CsvValue
deriving Repr, DecidableEq

/-- The fixed CSV header row (lines 528-540). -/
def csvHeaderRow : List CsvValue :=
  [.S (some "campaign_id"), .S (some "campaign_name"), .S (some "ad_group_id"),
   .S (some "ad_group_name"), .S (some "keyword_id"), .S (some "keyword"),
   .S (some "country"), .S (some "low_impression_share"),
   .S (some "high_impression_share"), .S (some "rank"),
   .S (some "search_popularity")]

/-- One CSV data row per report record (lines 542-556), in the fixed
column order. -/
def csvDataRow (row : ReportRow) : List CsvValue :=
  [.I row.metadata.campaign_id, .S row.metadata.campaign_name,
   .I row.metadata.ad_group_id, .S row.metadata.ad_group_name,
   .I row.metadata.keyword_id, .S row.metadata.keyword,
   .S row.metadata.country_or_region,
   .Q row.low_impression_share, .Q row.high_impression_share,
   .I row.rank, .I row.search_popularity]

/-- The CSV export of `generate_share_report` (lines 521-556): header row
followed by one data row per report record, no filtering. -/
def csvExport (rows : List ReportRow) : List (List CsvValue) :=
  csvHeaderRow :: rows.map csvDataRow

/-- Metadata of a kept report row, used to instantiate theorems. -/
def sampleMetaKept : RowMetadata :=
  { campaign_id := some 7, campaign_name := some "Brand",
    ad_group_id := none, ad_group_name := none, keyword_id := some 3,
    keyword := some "app", country_or_region := none }

/-- A kept report row used to instantiate theorems at concrete inputs. -/
def sampleRowKept : ReportRow :=
  { metadata := sampleMetaKept,
    low_impression_share := some (1/10), high_impression_share := some (1/5),
    rank := some 2, search_popularity := some 40 }

/-- Metadata with a falsy keyword id (`0`), used to instantiate theorems. -/
def sampleMetaDropped : RowMetadata :=
  { campaign_id := some 8, campaign_name := some "Generic",
    ad_group_id := some 9, ad_group_name := some "Group",
    keyword_id := some 0, keyword := some "kw",
    country_or_region := some "GB" }

/-- A report row with falsy keyword metadata (keyword id `0`), dropped by
`_parse_report_data` but still exported to CSV. -/
def sampleRowDropped : ReportRow :=
  { metadata := sampleMetaDropped,
    low_impression_share := none, high_impression_share := none,
    rank := none, search_popularity := none }

/-! ### Claims -/

/-- Claim C1: `suggested_bid` is the tiered pure function of `current_bid`
and `high_share`: unknown (`None`) or `≥ 0.50` keeps the current bid;
`≤ 0.10` multiplies by `1.50`; `0.10 < high_share ≤ 0.30` multiplies by
`1.25`; the boundaries are exact (`0.10 ↦ ×1.50`, `0.30 ↦ ×1.25`). -/
theorem c1_suggested_bid_tiers (d : KeywordShareData) :
    (d.high_share = none → d.suggested_bid = d.current_bid) ∧
    (∀ h : ℚ, d.high_share = some h →
      (1/2 ≤ h → d.suggested_bid = d.current_bid) ∧
      (h ≤ 1/10 → d.suggested_bid = d.current_bid * (3/2)) ∧
      (1/10 < h → h ≤ 3/10 → d.suggested_bid = d.current_bid * (5/4))) := by
  constructor
  · intro hn
    simp [KeywordShareData.suggested_bid, hn]
  · intro h hh
    simp only [KeywordShareData.suggested_bid, hh]
    refine ⟨fun h5 => ?_, fun h10 => ?_, fun hl hr => ?_⟩
    · rw [if_pos (by exact h5)]
    · rw [if_neg (by push_neg; linarith), if_pos (by linarith)]
    · rw [if_neg (by push_neg; linarith), if_neg (by push_neg; linarith),
        if_pos (by linarith)]

/-- Witness for C1 at concrete records covering all three tiers and both
boundary points. -/
theorem c1_suggested_bid_tiers_witness :
    (sampleRecord 2 none none).suggested_bid = 2 ∧
    (sampleRecord 2 none (some (1/2))).suggested_bid = 2 ∧
    (sampleRecord 2 none (some (1/10))).suggested_bid = 2 * (3/2) ∧
    (sampleRecord 2 none (some (3/10))).suggested_bid = 2 * (5/4) :=
  ⟨(c1_suggested_bid_tiers _).1 rfl,
   ((c1_suggested_bid_tiers _).2 (1/2) rfl).1 (by norm_num),
   ((c1_suggested_bid_tiers _).2 (1/10) rfl).2.1 (by norm_num),
   ((c1_suggested_bid_tiers _).2 (3/10) rfl).2.2 (by norm_num) (by norm_num)⟩

/-- Claim C2 counterexample: at `current_bid = 1`, `high_share = 0.50`
(inside the claimed half-open interval `(0.30, 0.50]`), the code keeps the
current bid instead of multiplying by `1.10`. -/
theorem c2_counterexample :
    (sampleRecord 1 none (some (1/2))).current_bid > 0 ∧
    (3/10 : ℚ) < 1/2 ∧ ((1/2 : ℚ) ≤ 1/2) ∧
    (sampleRecord 1 none (some (1/2))).suggested_bid ≠
      (sampleRecord 1 none (some (1/2))).current_bid * (11/10) := by
  refine ⟨by norm_num [sampleRecord], by norm_num, le_refl _, ?_⟩
  simp only [KeywordShareData.suggested_bid, sampleRecord]
  norm_num

/-- Claim C2 as amended: for every record with `current_bid > 0` and
`high_share` in the OPEN interval `(0.30, 0.50)`, `suggested_bid` equals
`current_bid × 1.10`; at `high_share = 0.50` exactly, the earlier
`high_share >= 0.5` branch keeps the current bid instead. -/
theorem c2_amended_open_interval (d : KeywordShareData) (h : ℚ)
    (_hb : d.current_bid > 0) (hh : d.high_share = some h)
    (h1 : 3/10 < h) (h2 : h < 1/2) :
    d.suggested_bid = d.current_bid * (11/10) := by
  simp only [KeywordShareData.suggested_bid, hh]
  rw [if_neg (by push_neg; linarith), if_neg (by push_neg; linarith),
    if_neg (by push_neg; linarith), if_pos (by linarith)]

/-- Witness for the amended C2 at `current_bid = 1`, `high_share = 0.40`. -/
theorem c2_amended_open_interval_witness :
    (sampleRecord 1 none (some (2/5))).suggested_bid =
      (sampleRecord 1 none (some (2/5))).current_bid * (11/10) :=
  c2_amended_open_interval _ (2/5) (by norm_num [sampleRecord]) rfl
    (by norm_num) (by norm_num)

/-- Claim C3: in each of the three commands, `days > 30` is clamped to 30
with a warning; the end date is yesterday and the start date is the end
date minus (effective days − 1).  The three commands compute identically. -/
theorem c3_days_clamp_date_range (today days : ℤ) :
    (optimizeDateRange today days = analyzeDateRange today days ∧
     reportDateRange today days = analyzeDateRange today days) ∧
    (days > 30 → (analyzeDateRange today days).warned = true ∧
      (analyzeDateRange today days).effective_days = 30) ∧
    (days ≤ 30 → (analyzeDateRange today days).warned = false ∧
      (analyzeDateRange today days).effective_days = days) ∧
    (analyzeDateRange today days).end_date = today - 1 ∧
    (analyzeDateRange today days).start_date =
      (analyzeDateRange today days).end_date -
        ((analyzeDateRange today days).effective_days - 1) := by
  unfold analyzeDateRange optimizeDateRange reportDateRange
  split_ifs with hd
  · exact ⟨⟨rfl, rfl⟩, fun _ => ⟨rfl, rfl⟩, fun hle => absurd hd (by omega), rfl, rfl⟩
  · exact ⟨⟨rfl, rfl⟩, fun hgt => absurd hgt hd, fun _ => ⟨rfl, rfl⟩, rfl, rfl⟩

/-- Witness for C3 at `today = 0`, `days = 45`: clamped to 30, warned,
end date `-1`, start date `-30`. -/
theorem c3_days_clamp_date_range_witness :
    (analyzeDateRange 0 45).warned = true ∧
    (analyzeDateRange 0 45).effective_days = 30 ∧
    (analyzeDateRange 0 45).end_date = -1 ∧
    (analyzeDateRange 0 45).start_date = -30 := by
  obtain ⟨-, h2, -, h4, h5⟩ := c3_days_clamp_date_range 0 45
  obtain ⟨w, e⟩ := h2 (by norm_num)
  refine ⟨w, e, h4, ?_⟩
  rw [h5, h4, e]
  norm_num

/-- Claim C4: with `min_share = 30`, the analyze filter keeps exactly the
rows whose `high_share` is present and strictly below `0.30`; the
comparison is exclusive and missing `high_share` rows are dropped. -/
theorem c4_min_share_filter_exclusive (data : List KeywordShareData)
    (d : KeywordShareData) :
    d ∈ minShareFilter 30 data ↔
      d ∈ data ∧ ∃ h : ℚ, d.high_share = some h ∧ h < 3/10 := by
  simp only [minShareFilter, List.mem_filter]
  constructor
  · rintro ⟨hd, hf⟩
    refine ⟨hd, ?_⟩
    cases hh : d.high_share with
    | none => rw [hh] at hf; simp at hf
    | some h =>
      rw [hh] at hf
      simp only [decide_eq_true_eq] at hf
      exact ⟨h, rfl, by linarith⟩
  · rintro ⟨hd, h, hh, hlt⟩
    refine ⟨hd, ?_⟩
    rw [hh]
    simp only [decide_eq_true_eq]
    linarith

/-- Claim C5: CSV export writes exactly one header row followed by one data
row per report record in input order (no row skipped), with the fixed
column order `campaign_id, campaign_name, ad_group_id, ad_group_name,
keyword_id, keyword, country, low_impression_share, high_impression_share,
rank, search_popularity`. -/
theorem c5_csv_export_shape (rows : List ReportRow) :
    (csvExport rows).length = rows.length + 1 ∧
    (csvExport rows).head? = some csvHeaderRow ∧
    (csvExport rows).tail = rows.map csvDataRow ∧
    csvHeaderRow =
      [CsvValue.S (some "campaign_id"), CsvValue.S (some "campaign_name"),
       CsvValue.S (some "ad_group_id"), CsvValue.S (some "ad_group_name"),
       CsvValue.S (some "keyword_id"), CsvValue.S (some "keyword"),
       CsvValue.S (some "country"), CsvValue.S (some "low_impression_share"),
       CsvValue.S (some "high_impression_share"), CsvValue.S (some "rank"),
       CsvValue.S (some "search_popularity")] ∧
    ∀ row : ReportRow, csvDataRow row =
      [CsvValue.I row.metadata.campaign_id, CsvValue.S row.metadata.campaign_name,
       CsvValue.I row.metadata.ad_group_id, CsvValue.S row.metadata.ad_group_name,
       CsvValue.I row.metadata.keyword_id, CsvValue.S row.metadata.keyword,
       CsvValue.S row.metadata.country_or_region,
       CsvValue.Q row.low_impression_share, CsvValue.Q row.high_impression_share,
       CsvValue.I row.rank, CsvValue.I row.search_popularity] := by
  refine ⟨?_, rfl, rfl, rfl, fun row => rfl⟩
  simp [csvExport]

/-- Claim C6: the sorted list is a permutation of the filtered list,
pairwise ascending in the sort key, and the key is `high_share` with a
missing value treated as `0`. -/
theorem c6_sort_ascending_perm (data : List KeywordShareData) :
    (sortByShare data).Perm data ∧
    (sortByShare data).Pairwise (fun a b => shareKey a ≤ shareKey b) ∧
    ∀ d : KeywordShareData, shareKey d = d.high_share.getD 0 := by
  refine ⟨List.mergeSort_perm data _, ?_, ?_⟩
  · have hs := @List.sorted_mergeSort KeywordShareData
      (fun a b => decide (shareKey a ≤ shareKey b))
      (fun a b c h1 h2 => by
        simp only [decide_eq_true_eq] at h1 h2 ⊢
        exact le_trans h1 h2)
      (fun a b => by
        rcases le_total (shareKey a) (shareKey b) with h | h <;> simp [h])
      data
    exact hs.imp (fun hab => by simpa using hab)
  · intro d
    cases hh : d.high_share with
    | none => simp [shareKey, hh]
    | some q =>
      by_cases hq : q = 0 <;> simp [shareKey, hh, hq]

/-- Claim C7: `share_range` maps `low_share = 0.05`, `high_share = 0.12` to
`"5-12%"`, and maps both `None` to `"N/A"`. -/
theorem c7_share_range_format :
    (sampleRecord 2 (some (1/20)) (some (12/100))).share_range = "5-12%" ∧
    (sampleRecord 2 none none).share_range = "N/A" := by
  constructor
  · simp only [KeywordShareData.share_range, sampleRecord, intTrunc]
    norm_num
    decide
  · simp [KeywordShareData.share_range, sampleRecord]

/-- Claim C8: with `high_share` equal to `None` or `≥ 0.50`, the suggested
bid equals the current bid and the displayed suggestion is `"-"`. -/
theorem c8_no_change_display (d : KeywordShareData) :
    (d.high_share = none →
      d.suggested_bid = d.current_bid ∧ d.suggested_bid_str = "-") ∧
    (∀ h : ℚ, d.high_share = some h → 1/2 ≤ h →
      d.suggested_bid = d.current_bid ∧ d.suggested_bid_str = "-") := by
  have key : d.suggested_bid = d.current_bid → d.suggested_bid_str = "-" := by
    intro hn
    simp [KeywordShareData.suggested_bid_str, hn]
  constructor
  · intro hn
    have h1 : d.suggested_bid = d.current_bid := by
      simp [KeywordShareData.suggested_bid, hn]
    exact ⟨h1, key h1⟩
  · intro h hh h5
    have h1 : d.suggested_bid = d.current_bid := by
      simp only [KeywordShareData.suggested_bid, hh]
      rw [if_pos (by exact h5)]
    exact ⟨h1, key h1⟩

/-- Witness for C8 at `high_share = None` and `high_share = 0.60`. -/
theorem c8_no_change_display_witness :
    ((sampleRecord 2 none none).suggested_bid =
        (sampleRecord 2 none none).current_bid ∧
      (sampleRecord 2 none none).suggested_bid_str = "-") ∧
    ((sampleRecord 2 none (some (3/5))).suggested_bid =
        (sampleRecord 2 none (some (3/5))).current_bid ∧
      (sampleRecord 2 none (some (3/5))).suggested_bid_str = "-") :=
  ⟨(c8_no_change_display _).1 rfl,
   (c8_no_change_display _).2 (3/5) rfl (by norm_num)⟩

/-- Claim C9: with a nonnegative current bid, the suggestion never lowers
the bid, whatever `high_share` is (including `None`). -/
theorem c9_no_bid_decrease (d : KeywordShareData)
    (hb : 0 ≤ d.current_bid) :
    d.current_bid ≤ d.suggested_bid := by
  cases hh : d.high_share with
  | none => simp [KeywordShareData.suggested_bid, hh]
  | some h =>
    simp only [KeywordShareData.suggested_bid, hh]
    split_ifs <;> nlinarith

/-- Witness for C9 at `current_bid = 2`, `high_share = 0.20`. -/
theorem c9_no_bid_decrease_witness :
    (sampleRecord 2 none (some (1/5))).current_bid ≤
      (sampleRecord 2 none (some (1/5))).suggested_bid :=
  c9_no_bid_decrease _ (by norm_num [sampleRecord])

/-- Claim C10: `_parse_report_data` is the filter dropping exactly the rows
with falsy `keyword_id` or `keyword`, followed by one total conversion per
kept row in input order; a missing bid lookup defaults the bid to `0` and
the currency to `"USD"`, and missing ids, names and country default to `0`
and `""`. -/
theorem c10_parse_report_total (kmap : ℤ → Option BidInfo)
    (rows : List ReportRow) :
    parseReportData kmap rows = (rows.filter keepRow).map (convertRow kmap) ∧
    (∀ row : ReportRow, keepRow row =
      (truthyOptInt row.metadata.keyword_id
        && truthyOptStr row.metadata.keyword)) ∧
    (∀ row : ReportRow, kmap (row.metadata.keyword_id.getD 0) = none →
      (convertRow kmap row).current_bid = 0 ∧
      (convertRow kmap row).currency = "USD") ∧
    (∀ row : ReportRow,
      (convertRow kmap row).campaign_id = row.metadata.campaign_id.getD 0 ∧
      (convertRow kmap row).campaign_name = row.metadata.campaign_name.getD "" ∧
      (convertRow kmap row).ad_group_id = row.metadata.ad_group_id.getD 0 ∧
      (convertRow kmap row).ad_group_name = row.metadata.ad_group_name.getD "" ∧
      (convertRow kmap row).country = row.metadata.country_or_region.getD "") := by
  refine ⟨parseReportData_eq_filter_map kmap rows, fun row => rfl,
    fun row hnone => ?_, fun row => ⟨rfl, rfl, rfl, rfl, rfl⟩⟩
  constructor <;> simp [convertRow, hnone]

/-- Witness for C10 on a two-row report (one kept row, one with keyword id
`0`) against an empty bid lookup. -/
theorem c10_parse_report_total_witness :
    parseReportData (fun _ => none) [sampleRowKept, sampleRowDropped] =
      (([sampleRowKept, sampleRowDropped].filter keepRow).map
        (convertRow (fun _ => none))) ∧
    (convertRow (fun _ => none) sampleRowKept).current_bid = 0 ∧
    (convertRow (fun _ => none) sampleRowKept).currency = "USD" := by
  obtain ⟨h1, -, h3, -⟩ :=
    c10_parse_report_total (fun _ => none) [sampleRowKept, sampleRowDropped]
  obtain ⟨hb, hc⟩ := h3 sampleRowKept rfl
  exact ⟨h1, hb, hc⟩

end AsaCli
